import Mathlib

/-!
# CapeEco — verification of the biodiversity / offset / scorecard layer

Shallow embedding of the CapeEco repository pieces that the claims are
about:

* the `capeeco.cba_category` enumeration and severity order
  (`src/scripts/schema.sql`, frontend `CBA_COLORS` table);
* the biodiversity status badge `bioStatus`
  (`src/frontend/src/components/PropertySidebar.jsx`);
* the score bar / score gauge fill computation
  (`PropertySidebar.jsx` `ScoreBar`, report `ScoreGauge`);
* the schema-level table constraints, the staging tables produced by
  `CREATE TABLE ... (LIKE ... INCLUDING ALL)` plus the
  `ALTER TABLE ... DROP CONSTRAINT` statements;
* the offset rule engine and the spatial-relationship resolver, which are
  not part of the source tree and are therefore modelled from the spec
  where a claim needs them (each such definition says so in its
  doc comment).

Numeric JavaScript values are modelled as `ℚ`; database enums as Lean
inductives; JSON payload fields that may be absent as `Option`.
-/

namespace CapeEco

/-- The `capeeco.cba_category` enum of `src/scripts/schema.sql`
(constructors in the declaration order of the SQL enum). -/
inductive CbaCategory where
  | PA      -- Protected Area
  | CA      -- Conservation Area
  | CBA1a   -- Critical Biodiversity Area 1a
  | CBA1b   -- Critical Biodiversity Area 1b
  | CBA1c   -- Critical Biodiversity Area 1c
  | CBA2    -- Critical Biodiversity Area 2
  | ESA1    -- Ecological Support Area 1
  | ESA2    -- Ecological Support Area 2
  | ONA     -- Other Natural Area
  deriving DecidableEq, Repr, Fintype

/-- The string value of each enum label, exactly as it appears in the SQL
enum and in the JSON payloads consumed by the frontend. -/
def CbaCategory.code : CbaCategory → String
  | .PA => "PA"
  | .CA => "CA"
  | .CBA1a => "CBA 1a"
  | .CBA1b => "CBA 1b"
  | .CBA1c => "CBA 1c"
  | .CBA2 => "CBA 2"
  | .ESA1 => "ESA 1"
  | .ESA2 => "ESA 2"
  | .ONA => "ONA"

/-- Declaration order of the labels in `CREATE TYPE capeeco.cba_category AS
ENUM (...)` in `src/scripts/schema.sql` (lines 23–33), transcribed as the
list of string labels in source order. -/
def schemaEnumOrder : List String :=
  ["PA", "CA", "CBA 1a", "CBA 1b", "CBA 1c", "CBA 2", "ESA 1", "ESA 2", "ONA"]

/-- Key order of the `CBA_COLORS` mapping in the frontend constants file
(`src/unnamed/part_001`, lines 2–12), transcribed in source order. -/
def cbaColorsKeyOrder : List String :=
  ["PA", "CA", "CBA 1a", "CBA 1b", "CBA 1c", "CBA 2", "ESA 1", "ESA 2", "ONA"]

/-- Severity rank of a designation per the fixed severity order
`PA > CA > CBA 1a > CBA 1b > CBA 1c > CBA 2 > ESA 1 > ESA 2 > ONA`
(rank 0 is the most severe). -/
def severityRank : CbaCategory → Nat
  | .PA => 0
  | .CA => 1
  | .CBA1a => 2
  | .CBA1b => 3
  | .CBA1c => 4
  | .CBA2 => 5
  | .ESA1 => 6
  | .ESA2 => 7
  | .ONA => 8

/-- `moreSevere a b` : designation `a` is strictly more severe than `b`
(`a > b` in the severity order). -/
def moreSevere (a b : CbaCategory) : Prop := severityRank a < severityRank b

instance : DecidableRel moreSevere := fun a b =>
  inferInstanceAs (Decidable (severityRank a < severityRank b))

/-- All nine categories, in severity order (most severe first). -/
def allCategoriesBySeverity : List CbaCategory :=
  [.PA, .CA, .CBA1a, .CBA1b, .CBA1c, .CBA2, .ESA1, .ESA2, .ONA]

/-!
## The sidebar biodiversity status badge

`src/frontend/src/components/PropertySidebar.jsx`, lines 186–193. The
payload field `property.biodiversity` is a JSON array whose entries carry
a `cba_category` string (plus other fields the badge never reads); the
array, or the whole property, may be missing.
-/

/-- One entry of the `property.biodiversity` payload array, as read by the
sidebar: the badge only ever reads `cba_category`; `overlap_pct` and
`vegetation_type` are carried along to model that entries hold more data. -/
structure BioEntry where
  cba_category : String
  overlap_pct : Option ℚ
  vegetation_type : Option String
  deriving DecidableEq, Repr

/-- `bioStatus` from `PropertySidebar.jsx` (lines 186–193): `none` stands
for a missing property or missing `biodiversity` field (the JS guard
`!property?.biodiversity?.length` also catches the empty array). -/
def bioStatus : Option (List BioEntry) → String
  | none => "clear"
  | some [] => "clear"
  | some (top :: _) =>
    if top.cba_category ∈ (["PA", "CA", "CBA 1a"] : List String) then "no-go"
    else if top.cba_category ∈ (["CBA 1b", "CBA 1c"] : List String) then "exceptional"
    else if top.cba_category ∈ (["CBA 2", "ESA 1", "ESA 2"] : List String) then "offset"
    else "clear"

/-- The status of a single category value, written from the words of the
claim (refinement reference): PA, CA and CBA 1a yield no-go; CBA 1b and
CBA 1c yield exceptional; CBA 2, ESA 1 and ESA 2 yield offset; any other
value yields clear. -/
def badgeOfCategory (cat : String) : String :=
  if cat ∈ (["PA", "CA", "CBA 1a"] : List String) then "no-go"
  else if cat ∈ (["CBA 1b", "CBA 1c"] : List String) then "exceptional"
  else if cat ∈ (["CBA 2", "ESA 1", "ESA 2"] : List String) then "offset"
  else "clear"

/-- The four badge statuses, the key set of `BIO_STATUS` in the frontend
constants file (`src/unnamed/part_001`, lines 23–28). -/
def bioStatusValues : List String := ["no-go", "exceptional", "offset", "clear"]

/-!
## The offset rule engine

The engine itself (`calculate_offset`) is not part of the source tree —
only the schema it persists into (`capeeco.offset_calculations`) and the
frontend that displays its payload are. Where a claim needs the engine it
is modelled from the spec (§4.5), as stated on each definition.
-/

/-- The `capeeco.ecosystem_threat_status` enum of `src/scripts/schema.sql`
(lines 35–40), in declaration order. -/
inductive ThreatStatus where
  | CR  -- Critically Endangered
  | EN  -- Endangered
  | VU  -- Vulnerable
  | LT  -- Least Threatened
  deriving DecidableEq, Repr, Fintype

/-- The `capeeco.habitat_condition` enum of `src/scripts/schema.sql`
(lines 42–49), in declaration order. -/
inductive HabitatCondition where
  | Natural
  | Good
  | Fair
  | Poor
  | IrreversiblyModified
  | NaturalAquaticHabitat
  deriving DecidableEq, Repr, Fintype

/-- Modelled from the spec: the Rule Configuration (§3, §4.5, §9) is an
external read-only mapping, absent from src. A designation may carry its
own base ratio (`some r`, where `r = 0` means no offset required) or none
(fall back to the ecosystem threat-status ratio); condition multipliers,
the outside-urban-edge adjustment and cost-per-hectare rates are totals. -/
structure RuleConfig where
  designationBaseRatio : CbaCategory → Option ℚ
  ecosystemBaseRatio : ThreatStatus → ℚ
  conditionMultiplier : HabitatCondition → ℚ
  outsideEdgeAdjustment : ℚ
  costPerHa : ThreatStatus → ℚ

/-- The result payload of one offset calculation, mirroring the fields of
`capeeco.offset_calculations` (schema.sql lines 300–317) that the claims
read; `Option` fields are absent (`none`) when not computed. -/
structure OffsetResult where
  isNoGo : Bool
  noGoReason : Option String
  baseRatio : Option ℚ
  requiredOffsetHa : Option ℚ
  offsetCostEstimateZar : Option ℚ
  deriving DecidableEq, Repr

/-- The three no-go designation categories (spec §4.5; frontend
`PropertySidebar.jsx` line 189 and the ReportView no-go warning in
`src/unnamed/part_004`, lines 670–684). -/
def noGoCategories : List CbaCategory := [.PA, .CA, .CBA1a]

/-- Modelled from the spec: `calculate_offset` (§4.5) is not in src.
PA / CA / CBA 1a short-circuit to a no-go result that computes no ratio,
offset area or cost; otherwise
`required_offset_area = footprint × base_ratio × condition_multiplier ×
urban_edge_adjustment` (footprint converted from m² to hectares), with the
designation ratio falling back to the threat-status ratio when absent, and
cost = offset hectares × cost-per-hectare. -/
def calculateOffset (cfg : RuleConfig) (footprintSqm : ℚ) (designation : CbaCategory)
    (condition : HabitatCondition) (threat : ThreatStatus) (insideUrbanEdge : Bool) :
    OffsetResult :=
  if designation ∈ noGoCategories then
    { isNoGo := true
      noGoReason := some "Development prohibited: Protected Area / Conservation Area / CBA 1a"
      baseRatio := none
      requiredOffsetHa := none
      offsetCostEstimateZar := none }
  else
    let ratio : ℚ :=
      match cfg.designationBaseRatio designation with
      | some r => r
      | none => cfg.ecosystemBaseRatio threat
    let edgeAdj : ℚ := if insideUrbanEdge then 1 else cfg.outsideEdgeAdjustment
    let requiredHa : ℚ :=
      footprintSqm / 10000 * ratio * cfg.conditionMultiplier condition * edgeAdj
    { isNoGo := false
      noGoReason := none
      baseRatio := some ratio
      requiredOffsetHa := some requiredHa
      offsetCostEstimateZar := some (requiredHa * cfg.costPerHa threat) }

/-- The constant no-go result record that `calculateOffset` returns for
every no-go designation. -/
def noGoResult : OffsetResult :=
  { isNoGo := true
    noGoReason := some "Development prohibited: Protected Area / Conservation Area / CBA 1a"
    baseRatio := none
    requiredOffsetHa := none
    offsetCostEstimateZar := none }

/-- A concrete rule configuration used by witnesses, with the values of
the worked example in spec §8 (CBA 2 base ratio 3, condition multiplier
1.2, inside-edge adjustment 1). -/
def sampleRuleConfig : RuleConfig where
  designationBaseRatio
    | .ONA => some 0
    | .CBA2 => some 3
    | _ => none
  ecosystemBaseRatio
    | .CR => 30
    | .EN => 20
    | .VU => 10
    | .LT => 2
  conditionMultiplier
    | .Natural => (6 : ℚ) / 5
    | _ => 1
  outsideEdgeAdjustment := 2
  costPerHa := fun _ => 150000

/-!
## The cost-estimate display guard

`PropertySidebar.jsx` lines 423–425 and the report offset analysis
(`src/unnamed/part_004`, lines 662–664) both render the cost row under the
guard `offset_cost_estimate_zar > 0`; in JavaScript an absent field makes
the comparison false.
-/

/-- Whether the frontend renders the cost-estimate row: the payload field
`offset_cost_estimate_zar` compared with `> 0`, false when absent. -/
def showsCostEstimate : Option ℚ → Bool
  | some c => decide (0 < c)
  | none => false

/-!
## The Net-Zero scorecard rendering and the fill computation
-/

/-- The five `ScoreBar` rows of the sidebar Green Star section
(`PropertySidebar.jsx`, lines 363–367): rendered label, payload score key,
and the `max` prop. -/
def sidebarScoreBars : List (String × String × ℕ) :=
  [("Energy", "energy", 35), ("Water", "water", 25), ("Ecology", "ecology", 20),
    ("Location", "location", 10), ("Materials", "materials_innovation", 10)]

/-- The five `ScoreGauge` cells of the report Net-Zero section
(`src/unnamed/part_004`, lines 761–765): label, payload score key, `max`. -/
def reportScoreGauges : List (String × String × ℕ) :=
  [("Energy", "energy", 35), ("Water", "water", 25), ("Ecology", "ecology", 20),
    ("Location", "location", 10), ("Materials", "materials_innovation", 10)]

/-- Key order of the `GREENSTAR_COLORS` mapping in the frontend constants
file (`src/unnamed/part_001`, lines 31–37). -/
def greenstarRatingBands : List String :=
  ["6-star", "5-star", "4-star", "3-star", "Below rated"]

/-- Modelled from the spec: the Net-Zero Scorecard Engine (§4.6) is not in
src. The total score maps to a rating band by descending thresholds:
6-star at or above the highest threshold, down to Below rated under the
lowest. -/
def greenstarBand (t6 t5 t4 t3 total : ℚ) : String :=
  if t6 ≤ total then "6-star"
  else if t5 ≤ total then "5-star"
  else if t4 ≤ total then "4-star"
  else if t3 ≤ total then "3-star"
  else "Below rated"

/-- `ScoreBar` fill percentage (`PropertySidebar.jsx`, line 50):
`Math.min((score / max) * 100, 100)`. -/
def scoreBarPct (score maxScore : ℚ) : ℚ := min (score / maxScore * 100) 100

/-- `ScoreGauge` fill percentage (`src/unnamed/part_004`, line 81):
`max > 0 ? Math.min((score / max) * 100, 100) : 0`. -/
def scoreGaugePct (score maxScore : ℚ) : ℚ :=
  if 0 < maxScore then min (score / maxScore * 100) 100 else 0

/-!
## The storage schema: tables, constraints, staging

A shallow model of the DDL of `src/scripts/schema.sql` at the granularity
the claims need: column names with their NOT NULL flags, and named
primary-key, unique and foreign-key constraints. The staging tables are
built by the modelled PostgreSQL semantics of
`CREATE TABLE ... (LIKE src INCLUDING ALL)` followed by the
`ALTER TABLE ... DROP CONSTRAINT IF EXISTS ...` statements of lines
352–365, applied in source order.
-/

/-- A column: its name and whether it carries a NOT NULL constraint
(primary-key columns are NOT NULL in PostgreSQL). -/
structure ColumnDef where
  name : String
  notNull : Bool
  deriving DecidableEq, Repr

/-- A table at the granularity the claims read: columns, the named
primary-key constraint with its key columns, named unique constraints,
and named foreign-key constraints (column, referenced table). -/
structure TableDef where
  name : String
  columns : List ColumnDef
  primaryKey : Option (String × List String)
  uniques : List (String × List String)
  foreignKeys : List (String × String × String)
  deriving DecidableEq, Repr

/-- `capeeco.properties` (schema.sql lines 64–97): columns in source
order; `sg26_code` is UNIQUE NOT NULL, `geom` NOT NULL, `id` the
BIGSERIAL primary key. -/
def properties : TableDef where
  name := "properties"
  columns :=
    [⟨"id", true⟩, ⟨"objectid", false⟩, ⟨"sg26_code", true⟩, ⟨"sl_parcel_key", false⟩,
      ⟨"erf_number", false⟩, ⟨"address_number", false⟩, ⟨"address_suffix", false⟩,
      ⟨"street_name", false⟩, ⟨"street_type", false⟩, ⟨"suburb", false⟩,
      ⟨"alt_suburb_name", false⟩, ⟨"ward", false⟩, ⟨"subcouncil", false⟩,
      ⟨"legal_status", false⟩, ⟨"zoning_raw", false⟩, ⟨"zoning_primary", false⟩,
      ⟨"area_sqm", false⟩, ⟨"area_ha", false⟩, ⟨"centroid_lon", false⟩,
      ⟨"centroid_lat", false⟩, ⟨"full_address", false⟩, ⟨"geom", true⟩,
      ⟨"created_at", false⟩]
  primaryKey := some ("properties_pkey", ["id"])
  uniques := [("properties_sg26_code_key", ["sg26_code"])]
  foreignKeys := []

/-- `capeeco.biodiversity_areas` (schema.sql lines 104–128). -/
def biodiversity_areas : TableDef where
  name := "biodiversity_areas"
  columns :=
    [⟨"id", true⟩, ⟨"objectid", false⟩, ⟨"cba_category", true⟩, ⟨"cba_name", false⟩,
      ⟨"subtype", false⟩, ⟨"sdf_category", false⟩, ⟨"description", false⟩,
      ⟨"significance", false⟩, ⟨"objective", false⟩, ⟨"action", false⟩,
      ⟨"compatible_use", false⟩, ⟨"habitat_cond", false⟩, ⟨"esa_significance", false⟩,
      ⟨"protected_area", false⟩, ⟨"proclaimed", false⟩, ⟨"managed", false⟩,
      ⟨"primary_class", false⟩, ⟨"area_ha", false⟩, ⟨"perimeter_m", false⟩,
      ⟨"geom", true⟩, ⟨"created_at", false⟩]
  primaryKey := some ("biodiversity_areas_pkey", ["id"])
  uniques := []
  foreignKeys := []

/-- `capeeco.ecosystem_types` (schema.sql lines 135–148). -/
def ecosystem_types : TableDef where
  name := "ecosystem_types"
  columns :=
    [⟨"id", true⟩, ⟨"objectid", false⟩, ⟨"vegetation_type", false⟩,
      ⟨"vegetation_subtype", false⟩, ⟨"community", false⟩, ⟨"threat_status", false⟩,
      ⟨"area_ha", false⟩, ⟨"perimeter_m", false⟩, ⟨"geom", true⟩, ⟨"created_at", false⟩]
  primaryKey := some ("ecosystem_types_pkey", ["id"])
  uniques := []
  foreignKeys := []

/-- `capeeco.address_points` (schema.sql lines 217–232); note that
`property_id` carries no REFERENCES clause in the DDL. -/
def address_points : TableDef where
  name := "address_points"
  columns :=
    [⟨"id", true⟩, ⟨"objectid", false⟩, ⟨"address_number", false⟩,
      ⟨"address_prefix", false⟩, ⟨"address_suffix", false⟩, ⟨"suburb", false⟩,
      ⟨"street_name", false⟩, ⟨"street_type", false⟩, ⟨"full_address", false⟩,
      ⟨"property_id", false⟩, ⟨"geom", true⟩, ⟨"created_at", false⟩]
  primaryKey := some ("address_points_pkey", ["id"])
  uniques := []
  foreignKeys := []

/-- `capeeco.heritage_sites` (schema.sql lines 191–210). -/
def heritage_sites : TableDef where
  name := "heritage_sites"
  columns :=
    [⟨"id", true⟩, ⟨"objectid", false⟩, ⟨"source", true⟩, ⟨"site_name", false⟩,
      ⟨"heritage_category", false⟩, ⟨"resource_type_1", false⟩,
      ⟨"resource_type_2", false⟩, ⟨"description", false⟩,
      ⟨"architectural_style", false⟩, ⟨"period", false⟩, ⟨"nhra_status", false⟩,
      ⟨"city_grading", false⟩, ⟨"street_address", false⟩, ⟨"area_ha", false⟩,
      ⟨"geom", true⟩, ⟨"created_at", false⟩]
  primaryKey := some ("heritage_sites_pkey", ["id"])
  uniques := []
  foreignKeys := []

/-- PostgreSQL semantics of `CREATE TABLE new (LIKE src INCLUDING ALL)`:
the column definitions are copied with their NOT NULL constraints, the
primary-key and unique constraints are copied under names derived from
the new table (`<new>_pkey`, `<new>_<cols>_key`), and foreign-key
constraints are never copied by LIKE. -/
def likeIncludingAll (newName : String) (src : TableDef) : TableDef where
  name := newName
  columns := src.columns
  primaryKey := src.primaryKey.map fun pk => (newName ++ "_pkey", pk.2)
  uniques := src.uniques.map fun u =>
    (newName ++ "_" ++ String.intercalate "_" u.2 ++ "_key", u.2)
  foreignKeys := []

/-- `ALTER TABLE t DROP CONSTRAINT IF EXISTS cname`: removes the
primary-key, unique or foreign-key constraint bearing that name, if any. -/
def dropConstraintIfExists (t : TableDef) (cname : String) : TableDef where
  name := t.name
  columns := t.columns
  primaryKey :=
    match t.primaryKey with
    | some pk => if pk.1 = cname then none else some pk
    | none => none
  uniques := t.uniques.filter fun u => u.1 ≠ cname
  foreignKeys := t.foreignKeys.filter fun fk => fk.1 ≠ cname

/-- `capeeco.staging_properties` after schema setup (schema.sql lines 352,
360–361): LIKE properties INCLUDING ALL, then DROP CONSTRAINT IF EXISTS
`staging_properties_sg26_code_key` and `staging_properties_pkey`. -/
def staging_properties : TableDef :=
  dropConstraintIfExists
    (dropConstraintIfExists (likeIncludingAll "staging_properties" properties)
      "staging_properties_sg26_code_key")
    "staging_properties_pkey"

/-- `capeeco.staging_biodiversity` after setup (lines 353, 362). -/
def staging_biodiversity : TableDef :=
  dropConstraintIfExists (likeIncludingAll "staging_biodiversity" biodiversity_areas)
    "staging_biodiversity_pkey"

/-- `capeeco.staging_ecosystem_types` after setup (lines 354, 363). -/
def staging_ecosystem_types : TableDef :=
  dropConstraintIfExists (likeIncludingAll "staging_ecosystem_types" ecosystem_types)
    "staging_ecosystem_types_pkey"

/-- `capeeco.staging_address_points` after setup (lines 355, 364). -/
def staging_address_points : TableDef :=
  dropConstraintIfExists (likeIncludingAll "staging_address_points" address_points)
    "staging_address_points_pkey"

/-- `capeeco.staging_heritage` after setup (lines 356, 365). -/
def staging_heritage : TableDef :=
  dropConstraintIfExists (likeIncludingAll "staging_heritage" heritage_sites)
    "staging_heritage_pkey"

/-- Whether a table carries no primary-key, no unique and no foreign-key
constraint. -/
def unconstrained (t : TableDef) : Bool :=
  t.primaryKey.isNone && t.uniques.isEmpty && t.foreignKeys.isEmpty

/-- Whether a row that holds SQL NULL in exactly the columns `nullCols`
satisfies the NOT NULL column constraints of table `t`. -/
def rowSatisfiesNotNull (t : TableDef) (nullCols : List String) : Bool :=
  t.columns.all fun c => !(c.notNull && nullCols.contains c.name)

/-!
## Promotion validation and the derived join relations
-/

/-- Modelled from the spec: the Promotion Manager (§4.3) is not in src. A
staged row at promotion time, reduced to what its validation reads:
whether its geometry is present and whether it is valid. -/
structure StagedRow where
  geomPresent : Bool
  geomValid : Bool
  deriving DecidableEq, Repr

/-- Modelled from the spec: the promotion validation step (§4.3) drops
rows with missing or invalid geometry and counts them — it returns the
kept rows together with the dropped-row count. -/
def promoteValidate (rows : List StagedRow) : List StagedRow × ℕ :=
  let kept := rows.filter fun r => r.geomPresent && r.geomValid
  (kept, rows.length - kept.length)

/-- A row of a derived join relation (`capeeco.property_biodiversity`,
`capeeco.property_ecosystems`; schema.sql lines 264–289), reduced to the
key and overlap columns the claim reads. -/
structure JoinRow where
  property_id : ℕ
  overlay_id : ℕ
  overlap_area_sqm : ℚ
  overlap_pct : ℚ
  deriving DecidableEq, Repr

/-- The `UNIQUE(property_id, biodiversity_area_id)` /
`UNIQUE(property_id, ecosystem_type_id)` constraints (schema.sql lines
274 and 288): no two distinct rows of the relation share the
(property, overlay) key pair. -/
def pairUnique (rows : List JoinRow) : Prop :=
  rows.Pairwise fun r1 r2 => (r1.property_id, r1.overlay_id) ≠ (r2.property_id, r2.overlay_id)

instance (rows : List JoinRow) : Decidable (pairUnique rows) :=
  inferInstanceAs (Decidable (rows.Pairwise _))

/-- Modelled from the spec: the Spatial Relationship Resolver (§4.4) is
not in src. Overlap percentage = intersection area / property area × 100. -/
def overlapPct (intersectionArea propertyArea : ℚ) : ℚ :=
  intersectionArea / propertyArea * 100

/-!
## The loaded parcel area
-/

/-- A multipolygon geometry: a list of polygons, each a list of
(lon, lat) vertices over ℚ. -/
structure MultiPolygon where
  polygons : List (List (ℚ × ℚ))
  deriving DecidableEq, Repr

/-- A raw parcel feature as decoded from the land-parcel source file: the
native SHAPE_Area field (decimal degrees squared), the parcel code and
the geometry. -/
structure ParcelFeature where
  shape_area : ℚ
  sg26_code : String
  geom : MultiPolygon
  deriving DecidableEq, Repr

/-- Modelled from the spec: the loader is not in src. Per the schema
design notes (schema.sql lines 61–62 and 85), the stored `area_sqm` is
computed by `ST_Area` over the parcel geometry in a projected reference
frame — a function of the geometry alone, parameterized here by the
projected-area function; the SHAPE_Area source field is never read. -/
def loadedAreaSqm (projArea : MultiPolygon → ℚ) (f : ParcelFeature) : ℚ :=
  projArea f.geom

end CapeEco

/-- Helper: under the pairwise key-distinctness constraint, filtering a
row list by one concrete (property, overlay) key keeps at most one row. -/
theorem filter_key_length_le_one (rows : List CapeEco.JoinRow) (p b : ℕ)
    (h : CapeEco.pairUnique rows) :
    (rows.filter fun r => r.property_id == p && r.overlay_id == b).length ≤ 1 := by
  induction rows with
  | nil => simp
  | cons r rs ih =>
    rw [CapeEco.pairUnique, List.pairwise_cons] at h
    obtain ⟨h1, h2⟩ := h
    by_cases hq : (r.property_id == p && r.overlay_id == b) = true
    · have hkey : r.property_id = p ∧ r.overlay_id = b := by
        simpa [Bool.and_eq_true, beq_iff_eq] using hq
      have hnil : rs.filter (fun r => r.property_id == p && r.overlay_id == b) = [] := by
        rw [List.filter_eq_nil_iff]
        intro a ha
        have hne := h1 a ha
        simp only [Bool.and_eq_true, beq_iff_eq, not_and]
        intro hp hb
        exact hne (by rw [hkey.1, hkey.2, hp, hb])
      rw [List.filter_cons, if_pos hq, hnil]
      simp
    · rw [List.filter_cons, if_neg hq]
      exact ih h2

/-- Claim C9. The sidebar biodiversity badge is a total function of the
`cba_category` of the first entry of `property.biodiversity`: PA, CA and
CBA 1a yield no-go; CBA 1b and CBA 1c yield exceptional; CBA 2, ESA 1 and
ESA 2 yield offset; any other category value, and an empty or missing
list, yield clear — exactly one of the four statuses results in every
case, and entries past the first never affect the badge. -/
theorem C9_bio_status_total_function :
    (∀ bio : Option (List CapeEco.BioEntry),
      CapeEco.bioStatus bio ∈ CapeEco.bioStatusValues) ∧
    CapeEco.bioStatus none = "clear" ∧
    CapeEco.bioStatus (some []) = "clear" ∧
    (∀ (top : CapeEco.BioEntry) (rest : List CapeEco.BioEntry),
      CapeEco.bioStatus (some (top :: rest)) = CapeEco.badgeOfCategory top.cba_category) ∧
    (∀ (top : CapeEco.BioEntry) (rest rest' : List CapeEco.BioEntry),
      CapeEco.bioStatus (some (top :: rest)) = CapeEco.bioStatus (some (top :: rest'))) ∧
    (CapeEco.badgeOfCategory "PA" = "no-go" ∧ CapeEco.badgeOfCategory "CA" = "no-go" ∧
      CapeEco.badgeOfCategory "CBA 1a" = "no-go") ∧
    (CapeEco.badgeOfCategory "CBA 1b" = "exceptional" ∧
      CapeEco.badgeOfCategory "CBA 1c" = "exceptional") ∧
    (CapeEco.badgeOfCategory "CBA 2" = "offset" ∧ CapeEco.badgeOfCategory "ESA 1" = "offset" ∧
      CapeEco.badgeOfCategory "ESA 2" = "offset") ∧
    (∀ cat : String,
      cat ∉ (["PA", "CA", "CBA 1a", "CBA 1b", "CBA 1c", "CBA 2", "ESA 1", "ESA 2"] :
        List String) →
      CapeEco.badgeOfCategory cat = "clear") := by
  refine ⟨?_, rfl, rfl, fun top rest => rfl, fun top rest rest' => rfl,
    ⟨by decide, by decide, by decide⟩, ⟨by decide, by decide⟩,
    ⟨by decide, by decide, by decide⟩, ?_⟩
  · intro bio
    rcases bio with _ | ⟨_ | ⟨top, rest⟩⟩
    · simp [CapeEco.bioStatus, CapeEco.bioStatusValues]
    · simp [CapeEco.bioStatus, CapeEco.bioStatusValues]
    · simp only [CapeEco.bioStatus]
      split_ifs <;> simp [CapeEco.bioStatusValues]
  · intro cat h
    simp only [List.mem_cons, List.not_mem_nil, or_false, not_or] at h
    obtain ⟨h1, h2, h3, h4, h5, h6, h7, h8⟩ := h
    simp [CapeEco.badgeOfCategory, h1, h2, h3, h4, h5, h6, h7, h8]

/-- Claim C9 witness. The final conjunct of the badge theorem applied at
the concrete category `ONA`, which is none of the eight non-clear
categories and so yields the clear badge. -/
theorem C9_bio_status_total_function_witness :
    CapeEco.badgeOfCategory "ONA" = "clear" :=
  C9_bio_status_total_function.2.2.2.2.2.2.2.2 "ONA" (by decide)

/-- Claim C1. Every no-go designation (PA, CA, CBA 1a) short-circuits the
offset evaluation: for every configuration, footprint, habitat condition,
threat status and urban-edge classification the engine returns the no-go
result whose ratio, offset area and cost fields are all absent; and the
frontend badge classifies exactly these three categories as no-go (an
empty or missing biodiversity list is never no-go). -/
theorem C1_no_go_short_circuit :
    (∀ (cfg : CapeEco.RuleConfig) (fp : ℚ) (d : CapeEco.CbaCategory)
        (cond : CapeEco.HabitatCondition) (threat : CapeEco.ThreatStatus) (edge : Bool),
      d ∈ CapeEco.noGoCategories →
        CapeEco.calculateOffset cfg fp d cond threat edge = CapeEco.noGoResult) ∧
    CapeEco.noGoCategories.map CapeEco.CbaCategory.code = ["PA", "CA", "CBA 1a"] ∧
    (∀ (top : CapeEco.BioEntry) (rest : List CapeEco.BioEntry),
      CapeEco.bioStatus (some (top :: rest)) = "no-go" ↔
        top.cba_category ∈ (["PA", "CA", "CBA 1a"] : List String)) ∧
    CapeEco.bioStatus none ≠ "no-go" ∧ CapeEco.bioStatus (some []) ≠ "no-go" := by
  refine ⟨?_, by decide, ?_, by decide, by decide⟩
  · intro cfg fp d cond threat edge hd
    simp [CapeEco.calculateOffset, hd, CapeEco.noGoResult]
  · intro top rest
    by_cases hm : top.cba_category ∈ (["PA", "CA", "CBA 1a"] : List String)
    · simp [CapeEco.bioStatus, hm]
    · simp only [CapeEco.bioStatus, if_neg hm]
      constructor
      · intro h
        split_ifs at h <;> simp_all
      · intro h
        exact absurd h hm

/-- Claim C1 witness. The engine theorem applied at the concrete sample
configuration, a 500 m² footprint and designation PA: the result is the
no-go record with no ratio, offset or cost. -/
theorem C1_no_go_short_circuit_witness :
    CapeEco.calculateOffset CapeEco.sampleRuleConfig 500 .PA .Good .EN true =
      CapeEco.noGoResult :=
  C1_no_go_short_circuit.1 CapeEco.sampleRuleConfig 500 .PA .Good .EN true (by decide)

/-- Claim C7. The Net-Zero scorecard has exactly five sub-scores with
fixed maxima — energy 35, water 25, ecology 20, location 10,
materials/innovation 10, summing to 100 — both frontend render sites
(sidebar score bars and report score gauges) show exactly these five
categories with exactly these maxima, and the total maps to a rating band
ranging from 6-star at the top down to Below rated. -/
theorem C7_scorecard_five_categories :
    CapeEco.sidebarScoreBars.map (fun r => r.1) =
      ["Energy", "Water", "Ecology", "Location", "Materials"] ∧
    CapeEco.sidebarScoreBars.map (fun r => r.2.1) =
      ["energy", "water", "ecology", "location", "materials_innovation"] ∧
    CapeEco.sidebarScoreBars.map (fun r => r.2.2) = [35, 25, 20, 10, 10] ∧
    CapeEco.reportScoreGauges = CapeEco.sidebarScoreBars ∧
    CapeEco.sidebarScoreBars.length = 5 ∧
    (CapeEco.sidebarScoreBars.map (fun r => r.2.2)).sum = 100 ∧
    (∀ t6 t5 t4 t3 total : ℚ,
      CapeEco.greenstarBand t6 t5 t4 t3 total ∈ CapeEco.greenstarRatingBands) ∧
    CapeEco.greenstarRatingBands.head? = some "6-star" ∧
    CapeEco.greenstarRatingBands.getLast? = some "Below rated" := by
  refine ⟨by decide, by decide, by decide, by decide, by decide, by decide, ?_, by decide,
    by decide⟩
  intro t6 t5 t4 t3 total
  unfold CapeEco.greenstarBand
  split_ifs <;> simp [CapeEco.greenstarRatingBands]

/-- Claim C8. The frontend reports a cost estimate exactly when the
computed required offset is strictly positive (given a positive configured
cost-per-hectare rate); a required offset of zero, or an absent one (the
no-go case), never shows a cost estimate. -/
theorem C8_cost_shown_iff_offset_positive :
    (∀ (cfg : CapeEco.RuleConfig) (fp : ℚ) (d : CapeEco.CbaCategory)
        (cond : CapeEco.HabitatCondition) (threat : CapeEco.ThreatStatus) (edge : Bool),
      0 < cfg.costPerHa threat →
        (CapeEco.showsCostEstimate
            (CapeEco.calculateOffset cfg fp d cond threat edge).offsetCostEstimateZar = true ↔
          ∃ ha, (CapeEco.calculateOffset cfg fp d cond threat edge).requiredOffsetHa = some ha ∧
            0 < ha)) ∧
    (∀ (cfg : CapeEco.RuleConfig) (fp : ℚ) (d : CapeEco.CbaCategory)
        (cond : CapeEco.HabitatCondition) (threat : CapeEco.ThreatStatus) (edge : Bool),
      (CapeEco.calculateOffset cfg fp d cond threat edge).requiredOffsetHa = some 0 →
        CapeEco.showsCostEstimate
          (CapeEco.calculateOffset cfg fp d cond threat edge).offsetCostEstimateZar = false) ∧
    (∀ (cfg : CapeEco.RuleConfig) (fp : ℚ) (d : CapeEco.CbaCategory)
        (cond : CapeEco.HabitatCondition) (threat : CapeEco.ThreatStatus) (edge : Bool),
      (CapeEco.calculateOffset cfg fp d cond threat edge).requiredOffsetHa = none →
        CapeEco.showsCostEstimate
          (CapeEco.calculateOffset cfg fp d cond threat edge).offsetCostEstimateZar = false) ∧
    CapeEco.showsCostEstimate none = false := by
  refine ⟨?_, ?_, ?_, rfl⟩
  · intro cfg fp d cond threat edge hr
    by_cases hd : d ∈ CapeEco.noGoCategories
    · simp [CapeEco.calculateOffset, hd, CapeEco.showsCostEstimate]
    · simp only [CapeEco.calculateOffset, if_neg hd, CapeEco.showsCostEstimate,
        decide_eq_true_eq, Option.some.injEq, exists_eq_left']
      constructor
      · intro h
        nlinarith
      · intro h
        exact mul_pos h hr
  · intro cfg fp d cond threat edge h0
    by_cases hd : d ∈ CapeEco.noGoCategories
    · simp [CapeEco.calculateOffset, hd, CapeEco.showsCostEstimate]
    · simp only [CapeEco.calculateOffset, if_neg hd, Option.some.injEq] at h0
      simp [CapeEco.calculateOffset, if_neg hd, CapeEco.showsCostEstimate, h0]
  · intro cfg fp d cond threat edge h0
    by_cases hd : d ∈ CapeEco.noGoCategories
    · simp [CapeEco.calculateOffset, hd, CapeEco.showsCostEstimate]
    · simp [CapeEco.calculateOffset, if_neg hd] at h0

/-- Claim C8 witness. The iff applied at the sample configuration and the
spec §8 worked example (500 m² footprint, CBA 2, Natural condition,
inside the edge): the required offset 0.18 ha is positive, so the cost
row is shown. -/
theorem C8_cost_shown_iff_offset_positive_witness :
    CapeEco.showsCostEstimate
      (CapeEco.calculateOffset CapeEco.sampleRuleConfig 500 .CBA2 .Natural .LT
        true).offsetCostEstimateZar = true :=
  (C8_cost_shown_iff_offset_positive.1 CapeEco.sampleRuleConfig 500 .CBA2 .Natural .LT true
      (by norm_num [CapeEco.sampleRuleConfig])).mpr
    ⟨9 / 50, by
      have hd : CapeEco.CbaCategory.CBA2 ∉ CapeEco.noGoCategories := by decide
      simp only [CapeEco.calculateOffset, if_neg hd]
      norm_num [CapeEco.sampleRuleConfig], by norm_num⟩

/-- Claim C10. For every rendered score bar or gauge with maximum
`m > 0` the fill percentage equals `min (score / m × 100) 100`, so the
fill never exceeds 100 even when the score exceeds its maximum (a score
at or above the maximum fills exactly 100); the report gauge yields a
fill of 0 when the maximum is 0. -/
theorem C10_fill_pct_capped :
    (∀ s m : ℚ, 0 < m → CapeEco.scoreBarPct s m = min (s / m * 100) 100) ∧
    (∀ s m : ℚ, 0 < m → CapeEco.scoreGaugePct s m = CapeEco.scoreBarPct s m) ∧
    (∀ s : ℚ, CapeEco.scoreGaugePct s 0 = 0) ∧
    (∀ s m : ℚ, CapeEco.scoreBarPct s m ≤ 100) ∧
    (∀ s m : ℚ, CapeEco.scoreGaugePct s m ≤ 100) ∧
    (∀ s m : ℚ, 0 < m → m ≤ s → CapeEco.scoreBarPct s m = 100) := by
  refine ⟨fun s m _ => rfl, ?_, ?_, ?_, ?_, ?_⟩
  · intro s m hm
    simp [CapeEco.scoreGaugePct, CapeEco.scoreBarPct, hm]
  · intro s
    simp [CapeEco.scoreGaugePct]
  · intro s m
    exact min_le_right _ _
  · intro s m
    unfold CapeEco.scoreGaugePct
    split
    · exact min_le_right _ _
    · norm_num
  · intro s m hm hms
    have h1 : (1 : ℚ) ≤ s / m := (one_le_div hm).mpr hms
    have h100 : (100 : ℚ) ≤ s / m * 100 := by nlinarith
    exact min_eq_right h100

/-- Claim C10 witness. The capped-fill conjunct applied at the concrete
score 50 with maximum 25: the score exceeds its maximum and the fill is
exactly 100. -/
theorem C10_fill_pct_capped_witness :
    CapeEco.scoreBarPct 50 25 = 100 :=
  C10_fill_pct_capped.2.2.2.2.2 50 25 (by norm_num) (by norm_num)

/-- Claim C3. For every row of the derived join relations the overlap
percentage, computed by the resolver as intersection area over property
area × 100, lies in [0, 100] (the intersection is contained in the
property, so its area is at most the property area); and under the UNIQUE
constraints of the join relations at most one row exists per
(property, overlay) pair. -/
theorem C3_overlap_invariants :
    (∀ interArea propArea : ℚ, 0 ≤ interArea → interArea ≤ propArea → 0 < propArea →
      0 ≤ CapeEco.overlapPct interArea propArea ∧
        CapeEco.overlapPct interArea propArea ≤ 100) ∧
    (∀ (rows : List CapeEco.JoinRow) (p b : ℕ), CapeEco.pairUnique rows →
      (rows.filter fun r => r.property_id == p && r.overlay_id == b).length ≤ 1) := by
  refine ⟨?_, fun rows p b h => filter_key_length_le_one rows p b h⟩
  intro interArea propArea h0 hle hpos
  constructor
  · have := div_nonneg h0 (le_of_lt hpos)
    unfold CapeEco.overlapPct
    nlinarith
  · have : interArea / propArea ≤ 1 := (div_le_one hpos).mpr hle
    unfold CapeEco.overlapPct
    nlinarith

/-- Claim C3 witness. The percentage bound applied at a concrete half
overlap (30 of 60), and the uniqueness bound applied at a concrete
two-row relation satisfying the UNIQUE constraint. -/
theorem C3_overlap_invariants_witness :
    (0 ≤ CapeEco.overlapPct 30 60 ∧ CapeEco.overlapPct 30 60 ≤ 100) ∧
    (([⟨1, 2, 300, 50⟩, ⟨1, 3, 120, 20⟩] : List CapeEco.JoinRow).filter
        fun r => r.property_id == 1 && r.overlay_id == 2).length ≤ 1 :=
  ⟨C3_overlap_invariants.1 30 60 (by norm_num) (by norm_num) (by norm_num),
    C3_overlap_invariants.2 [⟨1, 2, 300, 50⟩, ⟨1, 3, 120, 20⟩] 1 2 (by decide)⟩

/-- Claim C4. After schema setup every staging relation carries no
primary-key, no unique and no foreign-key constraint — LIKE ... INCLUDING
ALL copies the production constraints under staging-derived names and the
ALTER TABLE ... DROP CONSTRAINT IF EXISTS statements remove all of them,
while LIKE never copies foreign keys — and each staging relation keeps
exactly the column structure of its production counterpart. -/
theorem C4_staging_unconstrained :
    (CapeEco.unconstrained CapeEco.staging_properties = true ∧
      CapeEco.staging_properties.columns = CapeEco.properties.columns) ∧
    (CapeEco.unconstrained CapeEco.staging_biodiversity = true ∧
      CapeEco.staging_biodiversity.columns = CapeEco.biodiversity_areas.columns) ∧
    (CapeEco.unconstrained CapeEco.staging_ecosystem_types = true ∧
      CapeEco.staging_ecosystem_types.columns = CapeEco.ecosystem_types.columns) ∧
    (CapeEco.unconstrained CapeEco.staging_address_points = true ∧
      CapeEco.staging_address_points.columns = CapeEco.address_points.columns) ∧
    (CapeEco.unconstrained CapeEco.staging_heritage = true ∧
      CapeEco.staging_heritage.columns = CapeEco.heritage_sites.columns) := by
  refine ⟨⟨by decide, by decide⟩, ⟨by decide, by decide⟩, ⟨by decide, by decide⟩,
    ⟨by decide, by decide⟩, ⟨by decide, by decide⟩⟩

/-- Claim C5 counterexample. The claim asserts that a row whose geometry
is null can exist in the staging relation; it cannot: after setup
`staging_properties` still carries the NOT NULL constraint on `geom`
(copied by LIKE ... INCLUDING ALL; the DROP CONSTRAINT statements remove
only the primary-key and unique constraints), so a row that is null
exactly in `geom` violates the staging relation. -/
theorem C5_null_geom_row_rejected_in_staging :
    CapeEco.rowSatisfiesNotNull CapeEco.staging_properties ["geom"] = false := by
  decide

/-- Claim C5 (amended). During promotion rows with missing or invalid
geometry are dropped and counted, not silently ignored; but a row with
null geometry cannot exist in any staging relation — LIKE ... INCLUDING
ALL copies the NOT NULL constraint on `geom`, so null geometry is already
rejected at staging insert time, not first at the promotion validation
step. -/
theorem C5_geometry_validation :
    ([CapeEco.staging_properties, CapeEco.staging_biodiversity,
        CapeEco.staging_ecosystem_types, CapeEco.staging_address_points,
        CapeEco.staging_heritage].all
      fun t => !CapeEco.rowSatisfiesNotNull t ["geom"]) = true ∧
    (∀ rows : List CapeEco.StagedRow,
      (CapeEco.promoteValidate rows).1.length + (CapeEco.promoteValidate rows).2 =
        rows.length) ∧
    (∀ rows : List CapeEco.StagedRow,
      (CapeEco.promoteValidate rows).1.all (fun r => r.geomPresent && r.geomValid) = true) := by
  refine ⟨by decide, ?_, ?_⟩
  · intro rows
    exact Nat.add_sub_cancel' (List.length_filter_le _ rows)
  · intro rows
    rw [List.all_eq_true]
    intro r hr
    exact (List.mem_filter.mp hr).2

/-- Claim C6. The stored parcel area in square meters is a function of
the parcel geometry alone, computed by the projected-area function: two
source features with the same geometry but different native SHAPE_Area
(degree-squared) values — and different parcel codes — load to the same
stored area, so the area is never taken from SHAPE_Area. -/
theorem C6_area_from_geometry_only :
    (∀ (projArea : CapeEco.MultiPolygon → ℚ) (sa1 sa2 : ℚ) (code1 code2 : String)
        (g : CapeEco.MultiPolygon),
      CapeEco.loadedAreaSqm projArea ⟨sa1, code1, g⟩ =
        CapeEco.loadedAreaSqm projArea ⟨sa2, code2, g⟩) ∧
    (∀ (projArea : CapeEco.MultiPolygon → ℚ) (f : CapeEco.ParcelFeature),
      CapeEco.loadedAreaSqm projArea f = projArea f.geom) :=
  ⟨fun _ _ _ _ _ _ => rfl, fun _ _ => rfl⟩

/-- **C2.** The severity ordering `PA > CA > CBA 1a > CBA 1b > CBA 1c >
CBA 2 > ESA 1 > ESA 2 > ONA` is a strict total order over the nine
enumerated categories — irreflexive, transitive, and total — and the
declaration order of the database enum and of the frontend category table
both agree with it: each is exactly the category list sorted from most to
least severe. -/
theorem C2_severity_strict_total_order :
    (∀ a : CapeEco.CbaCategory, ¬ CapeEco.moreSevere a a) ∧
    (∀ a b c : CapeEco.CbaCategory,
      CapeEco.moreSevere a b → CapeEco.moreSevere b c → CapeEco.moreSevere a c) ∧
    (∀ a b : CapeEco.CbaCategory,
      CapeEco.moreSevere a b ∨ a = b ∨ CapeEco.moreSevere b a) ∧
    CapeEco.allCategoriesBySeverity.Pairwise CapeEco.moreSevere ∧
    CapeEco.schemaEnumOrder = CapeEco.allCategoriesBySeverity.map CapeEco.CbaCategory.code ∧
    CapeEco.cbaColorsKeyOrder = CapeEco.allCategoriesBySeverity.map CapeEco.CbaCategory.code := by
  refine ⟨by decide, by decide, by decide, by decide, by decide, by decide⟩

/-- **C2 witness.** The transitivity and totality conjuncts applied at
concrete categories: `PA > CBA 1a` follows from `PA > CA > CBA 1a`. -/
theorem C2_severity_strict_total_order_witness :
    CapeEco.moreSevere .PA .CBA1a :=
  C2_severity_strict_total_order.2.1 .PA .CA .CBA1a (by decide) (by decide)
